import Mathlib

/-!
Verification of the ThinQ smart-home control front end (`src/app.py`).

We shallowly embed the payload-normalization, device-projection,
selection, sub-device resolution and action-dispatch logic of `app.py`
over a JSON-like value type.  Python dicts are association lists with
unique keys (lookup takes the first match, which coincides with dict
semantics); Python `None` is `JValue.null`; Python truthiness is the
`truthy` predicate below.  The vendor SDK (`thinqconnect`) is an
external collaborator: its device construction and status bookkeeping
are abstracted as environment fields, and its `Location` enumeration is
modelled as a small closed inductive type.
-/

namespace ThinQ

/-- JSON-like values as handled by `app.py` (vendor payloads). Numbers are
modelled as integers, which covers every value the claims exercise. -/
inductive JValue where
  | null : JValue
  | bool : Bool → JValue
  | num : Int → JValue
  | str : String → JValue
  | arr : List JValue → JValue
  | obj : List (String × JValue) → JValue

/-- A Python dict of JSON values: an association list with (in practice)
unique keys, in insertion order. -/
abbrev Dict := List (String × JValue)

/-- Whether a JSON value is Python `None` (`v is None`). -/
def isNull : JValue → Bool
  | .null => true
  | _ => false

/-- Python truthiness (`bool(v)`) of a JSON value: `None`, `False`, `0`,
`""`, `[]` and `{}` are falsy, everything else truthy. -/
def truthy : JValue → Bool
  | .null => false
  | .bool b => b
  | .num n => n != 0
  | .str s => s != ""
  | .arr l => !l.isEmpty
  | .obj kvs => !kvs.isEmpty

mutual

/-- Python `repr()` of a JSON value (string escaping inside nested
strings is not modelled; no claim renders such a value). -/
def pyRepr : JValue → String
  | .null => "None"
  | .bool true => "True"
  | .bool false => "False"
  | .num n => toString n
  | .str s => "'" ++ s ++ "'"
  | .arr l => "[" ++ pyReprList l ++ "]"
  | .obj kvs => "\x7b" ++ pyReprObj kvs ++ "\x7d"

/-- Comma-separated `repr`s of list elements. -/
def pyReprList : List JValue → String
  | [] => ""
  | [v] => pyRepr v
  | v :: rest => pyRepr v ++ ", " ++ pyReprList rest

/-- Comma-separated `repr`s of dict items. -/
def pyReprObj : List (String × JValue) → String
  | [] => ""
  | [(k, v)] => "'" ++ k ++ "': " ++ pyRepr v
  | (k, v) :: rest => "'" ++ k ++ "': " ++ pyRepr v ++ ", " ++ pyReprObj rest

end

/-- Python `str()` of a JSON value: identity on strings, `repr`-like
elsewhere (`str(None) = "None"`, `str(True) = "True"`, …). -/
def pyStr : JValue → String
  | .str s => s
  | v => pyRepr v

/-- Python `str.upper()` (ASCII; every string the code uppercases —
location names, device types, units — is ASCII). Written over the
character list so that it reduces in the kernel. -/
def pyUpper (s : String) : String := String.mk (s.data.map Char.toUpper)

/-- Python substring containment `pat in hay` over character lists. -/
def containsSub (hay pat : List Char) : Bool :=
  match hay with
  | [] => pat.isEmpty
  | _ :: rest => pat.isPrefixOf hay || containsSub rest pat

/-- `_get(mapping, *keys, default=None)` from `app.py`: return the value
of the first key that is present with a non-`None` value, else the
default. -/
def _get (mapping : Dict) (keys : List String) (default : JValue := .null) : JValue :=
  match keys with
  | [] => default
  | k :: rest =>
    match mapping.lookup k with
    | some v => if isNull v then _get mapping rest default else v
    | none => _get mapping rest default

/-- The fixed envelope keys probed by `_extract_list`. -/
def listProbeKeys : List String := ["devices", "deviceList", "items", "result"]

/-- The value of key `k` in `kvs` when that value is a sequence,
otherwise nothing. -/
def probedList (kvs : Dict) (k : String) : Option (List JValue) :=
  match kvs.lookup k with
  | some (.arr l) => some l
  | _ => none

/-- Inner loop of `_extract_list`: first probed key whose value is a
list, else `[]`. -/
def extractListProbe (kvs : Dict) : List String → List JValue
  | [] => []
  | k :: rest =>
    match kvs.lookup k with
    | some (.arr l) => l
    | _ => extractListProbe kvs rest

/-- `_extract_list(payload)` from `app.py`: a list is returned as is; a
dict is probed for the envelope keys in order, returning the first value
that is a list; anything else yields `[]`. -/
def _extract_list (payload : JValue) : List JValue :=
  match payload with
  | .arr l => l
  | .obj kvs => extractListProbe kvs listProbeKeys
  | _ => []

/-- The fixed envelope keys probed by `_extract_profile`. -/
def profileProbeKeys : List String := ["profile", "result", "modelJson", "modelJsonV2", "data"]

/-- The value of key `k` in `kvs` when that value is a mapping,
otherwise nothing. -/
def probedDict (kvs : Dict) (k : String) : Option Dict :=
  match kvs.lookup k with
  | some (.obj d) => some d
  | _ => none

/-- Inner loop of `_extract_profile`: first probed key whose value is a
dict, if any. -/
def extractProfileProbe (kvs : Dict) : List String → Option Dict
  | [] => none
  | k :: rest =>
    match kvs.lookup k with
    | some (.obj d) => some d
    | _ => extractProfileProbe kvs rest

/-- `_extract_profile(payload)` from `app.py`: a dict is probed for the
envelope keys in order, returning the first value that is a dict, else
the dict itself; a non-dict raises `ValueError("Unexpected profile payload")`. -/
def _extract_profile (payload : JValue) : Except String Dict :=
  match payload with
  | .obj kvs =>
    match extractProfileProbe kvs profileProbeKeys with
    | some d => .ok d
    | none => .ok kvs
  | _ => .error "Unexpected profile payload"

/-- Inner loop of `_extract_status`: first probed key present with a
non-`None` value, else the whole dict. -/
def extractStatusProbe (kvs : Dict) : List String → JValue
  | [] => .obj kvs
  | k :: rest =>
    match kvs.lookup k with
    | some v => if isNull v then extractStatusProbe kvs rest else v
    | none => extractStatusProbe kvs rest

/-- `_extract_status(payload)` from `app.py`: a dict is probed for
`state`, `result`, `data`, `status` in order, returning the first
present non-`None` value; otherwise the payload is returned unchanged. -/
def _extract_status (payload : JValue) : JValue :=
  match payload with
  | .obj kvs => extractStatusProbe kvs ["state", "result", "data", "status"]
  | _ => payload

/-- The `DeviceOption` dataclass of `app.py`: the normalized device
descriptor used for selection and display. -/
structure DeviceOption where
  device_id : String
  alias' : String
  model_name : String
  device_type : String
deriving DecidableEq, Repr

/-- The id-like keys probed for a device id, in priority order. -/
def idKeys : List String := ["deviceId", "device_id", "id", "deviceID"]

/-- The keys probed for a device type, in priority order. -/
def typeKeys : List String := ["deviceType", "device_type", "type"]

/-- Whether key `k` is present in the dict (`k in entry`), regardless of
its value. -/
def hasKey (d : Dict) (k : String) : Bool := (d.lookup k).isSome

/-- `_normalize_device_entry(entry)` from `app.py`: if the entry nests a
`deviceInfo` dict, start from that dict and copy over any of the id-like
keys present on the outer entry but absent in the nested dict. -/
def _normalize_device_entry (entry : Dict) : Dict :=
  match entry.lookup "deviceInfo" with
  | some (.obj info) =>
    idKeys.foldl
      (fun merged k =>
        if hasKey entry k && !hasKey merged k then
          merged ++ [(k, (entry.lookup k).getD .null)]
        else merged)
      info
  | _ => entry

/-- `_to_device_option(entry)` from `app.py`: normalize the entry, probe
id and type (dropping the entry if either is falsy), then model name and
alias with their fallbacks, coercing everything to `str`. -/
def _to_device_option (entry0 : Dict) : Option DeviceOption :=
  let entry := _normalize_device_entry entry0
  let device_id := _get entry idKeys
  let device_type := _get entry typeKeys
  if !truthy device_id || !truthy device_type then none
  else
    let model_name := _get entry ["modelName", "model_name"] (.str "")
    let alias0 := _get entry ["alias", "name"] model_name
    let alias' := if truthy alias0 then alias0
      else if truthy model_name then model_name else device_id
    some
      { device_id := pyStr device_id
        alias' := pyStr alias'
        model_name := pyStr model_name
        device_type := pyStr device_type }

/-- The projection comprehension of `async_get_snapshot` / `async_preheat`
over a list of dict entries:
`[opt for entry in devices if (opt := _to_device_option(entry))]`. -/
def projectDicts (entries : List Dict) : List DeviceOption :=
  entries.filterMap _to_device_option

/-- The same comprehension over raw extracted values.  The vendor list
endpoint only produces mapping entries; entries of any other shape are
modelled as skipped. -/
def projectEntries (entries : List JValue) : List DeviceOption :=
  entries.filterMap fun e =>
    match e with
    | .obj kvs => _to_device_option kvs
    | _ => none

/-- `_pick_device(devices, device_id)` from `app.py`: `None` on an empty
list; else the first device whose id equals the (truthy) requested id;
else the first device. -/
def _pick_device (devices : List DeviceOption) (device_id : Option String) : Option DeviceOption :=
  match devices with
  | [] => none
  | d :: _ =>
    match device_id with
    | some s =>
      if s ≠ "" then
        match devices.find? (fun x => x.device_id == s) with
        | some m => some m
        | none => some d
      else some d
    | none => some d

/-- The `Location` enumeration of the vendor SDK (`thinqconnect`), an
external collaborator: modelled as a small closed enumeration carrying
the members the resolver can produce. -/
inductive Location where
  | oven
  | upper
  | lower
  | left
  | right
  | center
deriving DecidableEq, Repr

/-- `Location.__members__` of the SDK: uppercase member names. -/
def locationMembers : List (String × Location) :=
  [("OVEN", .oven), ("UPPER", .upper), ("LOWER", .lower),
   ("LEFT", .left), ("RIGHT", .right), ("CENTER", .center)]

/-- Python `str()` of an SDK `Location` member (distinct per member). -/
def locationStr : Location → String
  | .oven => "OVEN"
  | .upper => "UPPER"
  | .lower => "LOWER"
  | .left => "LEFT"
  | .right => "RIGHT"
  | .center => "CENTER"

/-- `_get_location_enum(location_name)` from `app.py`: falsy names give
`None`; otherwise the name is uppercased and looked up among the SDK's
location members. -/
def _get_location_enum (location_name : Option String) : Option Location :=
  match location_name with
  | none => none
  | some s =>
    if s = "" then none
    else locationMembers.lookup (pyUpper s)

/-- An oven's sub-device registry as the SDK builds it from the device
profile: locations to sub-device identifiers, in registration order. -/
abbrev SubRegistry := List (Location × Nat)

/-- The fallback chain of `_pick_subdevice`: primary oven cavity, then
upper, then lower, then the first registered sub-device, then nothing. -/
def pickSubdeviceDefault (registry : SubRegistry) : Option Nat × Option Location :=
  match registry.lookup .oven with
  | some s => (some s, some .oven)
  | none =>
    match registry.lookup .upper with
    | some s => (some s, some .upper)
    | none =>
      match registry.lookup .lower with
      | some s => (some s, some .lower)
      | none =>
        match registry with
        | [] => (none, none)
        | (l, s) :: _ => (some s, some l)

/-- `_pick_subdevice(device, location)` from `app.py`: use the requested
location when it names a known, registered location; otherwise fall back
through `pickSubdeviceDefault`. -/
def _pick_subdevice (registry : SubRegistry) (location : Option String) :
    Option Nat × Option Location :=
  match _get_location_enum location with
  | some l =>
    match registry.lookup l with
    | some s => (some s, some l)
    | none => pickSubdeviceDefault registry
  | none => pickSubdeviceDefault registry

/-- Comma-separated Python `str()`s of iterated elements: a list yields
its elements, a dict its keys, a string its characters — exactly the
values `isinstance(values, Iterable)` accepts in `_temp_hint`. -/
def iterStrs : JValue → Option (List String)
  | .str s => some (s.toList.map fun c => String.singleton c)
  | .arr l => some (l.map pyStr)
  | .obj kvs => some (kvs.map fun kv => kv.1)
  | _ => none

/-- `_temp_hint(subdevice, unit)` from `app.py`, parametrized by the
value the writable constraint of the target-temperature property reads
(`prop.get(PROPERTY_WRITABLE)`, `None` when absent): falsy constraints
become `[]`; a dict with non-`None` `min` and `max` renders the range;
otherwise any truthy iterable renders as a comma-joined `str()` list. -/
def _temp_hint (writable : JValue) (unit : String) : Option String :=
  let values := if truthy writable then writable else .arr []
  let rangeHint : Option String :=
    match values with
    | .obj kvs =>
      match kvs.lookup "min", kvs.lookup "max" with
      | some mn, some mx =>
        if !isNull mn && !isNull mx then
          some (pyStr mn ++ "-" ++ pyStr mx ++ pyUpper unit)
        else none
      | _, _ => none
    | _ => none
  match rangeHint with
  | some h => some h
  | none =>
    if truthy values then
      match iterStrs values with
      | some parts => some (String.intercalate ", " parts)
      | none => none
    else none

/-- `_is_oven(device)` from `app.py`: substring test
`"OVEN" in device.device_type.upper()`. -/
def _is_oven (device : DeviceOption) : Bool :=
  containsSub (pyUpper device.device_type).data "OVEN".data

/-- The SDK `Property` keys the dispatchers read or write. -/
inductive PropKey where
  | remote_control_enabled
  | cook_mode
  | oven_operation_mode
deriving DecidableEq, Repr

/-- A vendor SDK command issued on a resolved sub-device, identified by
its registry identifier. -/
inductive Command where
  | set_cook_mode_with_temperature_c (sub : Nat) (mode : String) (temp : Int)
  | set_cook_mode_with_temperature_f (sub : Nat) (mode : String) (temp : Int)
  | set_oven_operation_mode (sub : Nat) (mode : String)
  | do_attribute_command (sub : Nat) (p : PropKey) (value : Bool)
deriving DecidableEq, Repr

/-- The external world a dispatcher run observes: the three vendor API
responses, and the SDK's view of the selected device — the sub-device
registry `OvenDevice` derives from the extracted profile, and each
sub-device's `get_status` reading after `set_status` was called with the
extracted status (before any `set_status`, every reading is `None`). -/
structure Env where
  device_list_payload : JValue
  profile_payload : JValue
  status_payload : JValue
  registry : SubRegistry
  status_of : Nat → PropKey → Option JValue

/-- `status = _extract_status(status_payload) if status_payload else None`
in `async_preheat`, with the status only fetched when `refresh` is set. -/
def fetchedStatus (env : Env) (refresh : Bool) : Option JValue :=
  if refresh && truthy env.status_payload then some (_extract_status env.status_payload)
  else none

/-- Whether `device.set_status(status)` ran (`if status:` — only a truthy
extracted status is applied). -/
def statusWasSet (env : Env) (refresh : Bool) : Bool :=
  match fetchedStatus env refresh with
  | some s => truthy s
  | none => false

/-- `subdevice.get_status(p)` as observed by `async_preheat`: the
re-fetched reading when a status was set, `None` otherwise. -/
def subGetStatus (env : Env) (refresh : Bool) (sub : Nat) (p : PropKey) : Option JValue :=
  if statusWasSet env refresh then env.status_of sub p else none

/-- Python `x is False` on an optional status reading. -/
def isFalseJ : Option JValue → Bool
  | some (.bool false) => true
  | _ => false

/-- `str(_location) if _location else "selected location"` from
`async_preheat`'s refusal message. -/
def locLabel : Option Location → String
  | some l => locationStr l
  | none => "selected location"

/-- The refusal message of `async_preheat`'s remote-control check. -/
def remoteOffMsg (loc : Option Location) : String :=
  "Remote control is OFF for " ++ locLabel loc ++ ". Enable remote and try again."

/-- `async_preheat(cfg, device_id, mode, temp, unit, location, refresh)`
from `app.py`, as a function from the observed environment to either the
error raised or the vendor commands issued (the one cook-mode command is
last in the source, so an error means no command was issued). -/
def async_preheat (env : Env) (device_id mode : String) (temp : Int) (unit : String)
    (location : Option String) (refresh : Bool) : Except String (List Command) :=
  let options := projectEntries (_extract_list env.device_list_payload)
  match _pick_device options (some device_id) with
  | none => .error "No oven device found for the provided device_id."
  | some selected =>
    if !_is_oven selected then .error "Selected device is not an oven."
    else
      match _extract_profile env.profile_payload with
      | .error e => .error e
      | .ok _profile =>
        match _pick_subdevice env.registry location with
        | (none, _) => .error "No oven sub-device found for this model."
        | (some sub, loc) =>
          if refresh && isFalseJ (subGetStatus env refresh sub .remote_control_enabled) then
            .error (remoteOffMsg loc)
          else if pyUpper unit = "C" then
            .ok [.set_cook_mode_with_temperature_c sub mode temp]
          else
            .ok [.set_cook_mode_with_temperature_f sub mode temp]

/-- `async_oven_action(cfg, device_id, location, action)` from `app.py`,
as a function from the observed environment to either the error raised
or the vendor commands issued (all commands are issued last, so an error
means no command was issued). -/
def async_oven_action (env : Env) (device_id : String) (location : Option String)
    (action : String) : Except String (List Command) :=
  let options := projectEntries (_extract_list env.device_list_payload)
  match _pick_device options (some device_id) with
  | none => .error "Selected device is not an oven."
  | some selected =>
    if !_is_oven selected then .error "Selected device is not an oven."
    else
      match _extract_profile env.profile_payload with
      | .error e => .error e
      | .ok _profile =>
        match _pick_subdevice env.registry location with
        | (none, _) => .error "No oven sub-device found for this model."
        | (some sub, _loc) =>
          if action = "start" then .ok [.set_oven_operation_mode sub "START"]
          else if action = "stop" then .ok [.set_oven_operation_mode sub "STOP"]
          else if action = "remote_on" then
            .ok [.do_attribute_command sub .remote_control_enabled true]
          else if action = "remote_off" then
            .ok [.do_attribute_command sub .remote_control_enabled false]
          else .error ("Unknown action: " ++ action)

/-! ## Helper lemmas -/

theorem extractListProbe_eq_findSome (kvs : Dict) (ks : List String) :
    extractListProbe kvs ks = ((ks.findSome? (probedList kvs)).getD []) := by
  induction ks with
  | nil => rfl
  | cons k rest ih =>
    simp only [extractListProbe, List.findSome?_cons, probedList]
    cases h : kvs.lookup k with
    | none => simpa using ih
    | some v => cases v <;> simp [ih]

theorem extractProfileProbe_eq_findSome (kvs : Dict) (ks : List String) :
    extractProfileProbe kvs ks = ks.findSome? (probedDict kvs) := by
  induction ks with
  | nil => rfl
  | cons k rest ih =>
    simp only [extractProfileProbe, List.findSome?_cons, probedDict]
    cases h : kvs.lookup k with
    | none => simpa using ih
    | some v => cases v <;> simp [ih]

/-! ## Claims about the payload normalizer -/

/-- C3: `_extract_list` is total (a Lean function by construction) and
never fails: a sequence is returned unchanged; for a mapping the keys
`devices`, `deviceList`, `items`, `result` are probed in exactly that
priority order and the first value that is a sequence is returned
(`findSome?` over the priority list); in every other case — a mapping
where no probed key holds a sequence included, via `Option.getD` — the
empty sequence is returned. -/
theorem extract_list_spec (payload : JValue) :
    (∀ l, payload = .arr l → _extract_list payload = l) ∧
    (∀ kvs, payload = .obj kvs →
      _extract_list payload = ((listProbeKeys.findSome? (probedList kvs)).getD [])) ∧
    ((∀ l, payload ≠ .arr l) → (∀ kvs, payload ≠ .obj kvs) → _extract_list payload = []) := by
  refine ⟨?_, ?_, ?_⟩
  · rintro l rfl; rfl
  · rintro kvs rfl
    simp [_extract_list, extractListProbe_eq_findSome]
  · intro harr hobj
    cases payload with
    | arr l => exact absurd rfl (harr l)
    | obj kvs => exact absurd rfl (hobj kvs)
    | _ => rfl

/-- Witness for C3: on a mapping whose first two probed keys are absent
or not sequences, the probe returns the `items` sequence. -/
theorem extract_list_spec_witness :
    _extract_list (.obj [("deviceList", .str "x"), ("items", .arr [.num 1])]) = [.num 1] := by
  have h := (extract_list_spec (.obj [("deviceList", .str "x"), ("items", .arr [.num 1])])).2.1
  simpa [listProbeKeys, probedList] using h _ rfl

/-- C4: `_extract_profile` probes a mapping for `profile`, `result`,
`modelJson`, `modelJsonV2`, `data` in exactly that priority order and
returns the first value that is a mapping, else the input mapping
itself; it fails — with the "Unexpected profile payload" error — exactly
on non-mapping inputs, the normalizer's only hard-failure case
(`_extract_list` and `_extract_status` are total functions with no error
outcome by their types). -/
theorem extract_profile_spec (payload : JValue) :
    (∀ kvs, payload = .obj kvs →
      _extract_profile payload = .ok ((profileProbeKeys.findSome? (probedDict kvs)).getD kvs)) ∧
    ((∃ e, _extract_profile payload = .error e) ↔ ∀ kvs, payload ≠ .obj kvs) ∧
    ((∀ kvs, payload ≠ .obj kvs) →
      _extract_profile payload = .error "Unexpected profile payload") := by
  have herr : (∀ kvs, payload ≠ .obj kvs) →
      _extract_profile payload = .error "Unexpected profile payload" := by
    intro hobj
    cases payload with
    | obj kvs => exact absurd rfl (hobj kvs)
    | _ => rfl
  refine ⟨?_, ⟨?_, ?_⟩, herr⟩
  · rintro kvs rfl
    simp only [_extract_profile, extractProfileProbe_eq_findSome]
    cases h : profileProbeKeys.findSome? (probedDict kvs) <;> simp [h]
  · rintro ⟨e, he⟩ kvs rfl
    simp only [_extract_profile] at he
    cases h : extractProfileProbe kvs profileProbeKeys <;> rw [h] at he <;> cases he
  · intro hobj
    exact ⟨_, herr hobj⟩

/-- Witness for C4: a wrapped profile is unwrapped at the first mapping
key in priority order, and a non-mapping payload is the error case. -/
theorem extract_profile_spec_witness :
    _extract_profile (.obj [("result", .obj [("k", .num 2)])]) = .ok [("k", .num 2)] ∧
    _extract_profile (.str "oops") = .error "Unexpected profile payload" := by
  constructor
  · have h := (extract_profile_spec (.obj [("result", .obj [("k", .num 2)])])).1
    simpa [profileProbeKeys, probedDict] using h _ rfl
  · exact (extract_profile_spec (.str "oops")).2.2 (by intro kvs h; cases h)

/-! ## Claims about the device projector -/

/-- Whether key `k` is present in the entry with a non-`None` value —
the condition under which `_get` accepts a probed key. -/
def keyProvides (entry : Dict) (k : String) : Bool :=
  match entry.lookup k with
  | some v => !isNull v
  | none => false

theorem normalize_no_deviceInfo (entry : Dict)
    (h : entry.lookup "deviceInfo" = none) : _normalize_device_entry entry = entry := by
  simp [_normalize_device_entry, h]

theorem _get_cons (mapping : Dict) (k : String) (rest : List String) (default : JValue) :
    _get mapping (k :: rest) default =
      match mapping.lookup k with
      | some v => if isNull v then _get mapping rest default else v
      | none => _get mapping rest default := rfl

theorem _get_skip (mapping : Dict) (k : String) (rest : List String) (default : JValue)
    (h : keyProvides mapping k = false) :
    _get mapping (k :: rest) default = _get mapping rest default := by
  rw [_get_cons]
  unfold keyProvides at h
  cases hl : mapping.lookup k with
  | none => rfl
  | some v =>
    rw [hl] at h
    simp only [Bool.not_eq_false'] at h
    simp [h]

theorem _get_hit (mapping : Dict) (k : String) (rest : List String) (default : JValue)
    (v : JValue) (hl : mapping.lookup k = some v) (hv : isNull v = false) :
    _get mapping (k :: rest) default = v := by
  rw [_get_cons, hl]
  simp [hv]

/-- C5: device-id probing is deterministic with fixed priority.  For a
(merged) raw entry — one with no `deviceInfo` key left to merge — the id
probe returns the value of `deviceId` whenever that key is present and
non-null; failing that (absent or null, i.e. `keyProvides = false`) the
value of `device_id`; then `id`; then `deviceID`.  The projected
descriptor's `device_id` field is the `str()` of the probed value. -/
theorem device_id_probe_priority (entry : Dict) (v : JValue)
    (hmerge : entry.lookup "deviceInfo" = none) :
    (entry.lookup "deviceId" = some v → isNull v = false → _get entry idKeys = v) ∧
    (keyProvides entry "deviceId" = false →
      entry.lookup "device_id" = some v → isNull v = false → _get entry idKeys = v) ∧
    (keyProvides entry "deviceId" = false → keyProvides entry "device_id" = false →
      entry.lookup "id" = some v → isNull v = false → _get entry idKeys = v) ∧
    (keyProvides entry "deviceId" = false → keyProvides entry "device_id" = false →
      keyProvides entry "id" = false →
      entry.lookup "deviceID" = some v → isNull v = false → _get entry idKeys = v) ∧
    (truthy (_get entry idKeys) = true → truthy (_get entry typeKeys) = true →
      ∃ o, _to_device_option entry = some o ∧ o.device_id = pyStr (_get entry idKeys)) := by
  refine ⟨?_, ?_, ?_, ?_, ?_⟩
  · intro hl hv
    exact _get_hit _ _ _ _ _ hl hv
  · intro h1 hl hv
    rw [show idKeys = "deviceId" :: ["device_id", "id", "deviceID"] from rfl,
      _get_skip _ _ _ _ h1]
    exact _get_hit _ _ _ _ _ hl hv
  · intro h1 h2 hl hv
    rw [show idKeys = "deviceId" :: ["device_id", "id", "deviceID"] from rfl,
      _get_skip _ _ _ _ h1, _get_skip _ _ _ _ h2]
    exact _get_hit _ _ _ _ _ hl hv
  · intro h1 h2 h3 hl hv
    rw [show idKeys = "deviceId" :: ["device_id", "id", "deviceID"] from rfl,
      _get_skip _ _ _ _ h1, _get_skip _ _ _ _ h2, _get_skip _ _ _ _ h3]
    exact _get_hit _ _ _ _ _ hl hv
  · intro hid htype
    unfold _to_device_option
    rw [normalize_no_deviceInfo entry hmerge]
    simp only [hid, htype, Bool.not_true, Bool.or_self, Bool.false_or, if_false]
    exact ⟨_, rfl, rfl⟩

/-- Witness for C5: `deviceId` (null here, so skipped) loses to
`device_id`, which wins over a conflicting `id`. -/
theorem device_id_probe_priority_witness :
    _get [("deviceId", .null), ("device_id", .str "a"), ("id", .str "b")] idKeys = .str "a" := by
  have h := (device_id_probe_priority
    [("deviceId", .null), ("device_id", .str "a"), ("id", .str "b")] (.str "a") rfl).2.1
  exact h rfl rfl rfl

/-- Whether the entry, after the `deviceInfo` merge, resolves a (truthy)
device id. -/
def resolvableId (e : Dict) : Bool := truthy (_get (_normalize_device_entry e) idKeys)

/-- Whether the entry, after the `deviceInfo` merge, resolves a (truthy)
device type. -/
def resolvableType (e : Dict) : Bool := truthy (_get (_normalize_device_entry e) typeKeys)

/-- The drop condition of `_to_device_option`. -/
def entryMalformed (e : Dict) : Bool := !resolvableId e || !resolvableType e

theorem to_device_option_none_iff (e : Dict) :
    _to_device_option e = none ↔ entryMalformed e = true := by
  unfold _to_device_option entryMalformed resolvableId resolvableType
  by_cases h : (!truthy (_get (_normalize_device_entry e) idKeys) ||
      !truthy (_get (_normalize_device_entry e) typeKeys)) = true
  · simp [h]
  · simp [h]

theorem projectDicts_length_of_wellformed (l : List Dict)
    (h : ∀ e' ∈ l, entryMalformed e' = false) : (projectDicts l).length = l.length := by
  induction l with
  | nil => rfl
  | cons e rest ih =>
    have he : entryMalformed e = false := h e (List.mem_cons_self e rest)
    have hsome : _to_device_option e ≠ none := by
      intro hn
      rw [(to_device_option_none_iff e).mp hn] at he
      cases he
    cases ho : _to_device_option e with
    | none => exact absurd ho hsome
    | some o =>
      simp only [projectDicts, List.filterMap_cons, ho, List.length_cons]
      exact congrArg Nat.succ (ih fun e' he' => h e' (List.mem_cons_of_mem e he'))

/-- C6: projection tolerates partial failure independently per entry.
An entry that, after the `deviceInfo` merge, lacks a resolvable (truthy)
device id or device type projects to nothing and is excluded; its
presence leaves every other entry's projection unaffected; a list of 5
entries of which exactly 1 is malformed projects to exactly 4
descriptors; and the pipeline comprehension over raw mapping values
agrees with the per-dict projection. -/
theorem projection_partial_tolerance :
    (∀ e : Dict, entryMalformed e = true → _to_device_option e = none) ∧
    (∀ (xs ys : List Dict) (e : Dict), entryMalformed e = true →
      projectDicts (xs ++ e :: ys) = projectDicts xs ++ projectDicts ys) ∧
    (∀ (xs ys : List Dict) (e : Dict), entryMalformed e = true →
      (∀ e' ∈ xs ++ ys, entryMalformed e' = false) →
      (xs ++ e :: ys).length = 5 → (projectDicts (xs ++ e :: ys)).length = 4) ∧
    (∀ entries : List Dict, projectEntries (entries.map .obj) = projectDicts entries) := by
  have hdrop : ∀ e : Dict, entryMalformed e = true → _to_device_option e = none :=
    fun e he => (to_device_option_none_iff e).mpr he
  have hsplit : ∀ (xs ys : List Dict) (e : Dict), entryMalformed e = true →
      projectDicts (xs ++ e :: ys) = projectDicts xs ++ projectDicts ys := by
    intro xs ys e he
    simp [projectDicts, List.filterMap_append, List.filterMap_cons, hdrop e he]
  refine ⟨hdrop, hsplit, ?_, ?_⟩
  · intro xs ys e he hwf hlen
    have h4 : xs.length + ys.length = 4 := by
      simp only [List.length_append, List.length_cons] at hlen
      omega
    have hxs : (projectDicts xs).length = xs.length :=
      projectDicts_length_of_wellformed xs fun e' he' => hwf e' (List.mem_append_left _ he')
    have hys : (projectDicts ys).length = ys.length :=
      projectDicts_length_of_wellformed ys fun e' he' => hwf e' (List.mem_append_right _ he')
    rw [hsplit xs ys e he, List.length_append, hxs, hys, h4]
  · intro entries
    induction entries with
    | nil => rfl
    | cons e rest ih =>
      simp only [projectEntries, projectDicts, List.map_cons, List.filterMap_cons] at ih ⊢
      cases _to_device_option e <;> simp [ih]

/-- Witness for C6: a 5-entry list whose middle entry lacks a device
type projects to exactly 4 descriptors. -/
theorem projection_partial_tolerance_witness :
    (projectDicts
      [[("deviceId", .str "a"), ("deviceType", .str "DEVICE_OVEN")],
       [("deviceId", .str "b"), ("deviceType", .str "DEVICE_OVEN")],
       [("deviceId", .str "bad")],
       [("deviceId", .str "c"), ("deviceType", .str "DEVICE_OVEN")],
       [("deviceId", .str "d"), ("deviceType", .str "DEVICE_OVEN")]]).length = 4 := by
  have h := projection_partial_tolerance.2.2.1
    [[("deviceId", .str "a"), ("deviceType", .str "DEVICE_OVEN")],
     [("deviceId", .str "b"), ("deviceType", .str "DEVICE_OVEN")]]
    [[("deviceId", .str "c"), ("deviceType", .str "DEVICE_OVEN")],
     [("deviceId", .str "d"), ("deviceType", .str "DEVICE_OVEN")]]
    [("deviceId", .str "bad")]
  refine h (by decide) ?_ (by decide)
  intro e' he'
  fin_cases he' <;> decide

/-! ## Device selection -/

theorem toDigitsCore_length_mono (b : Nat) (fuel : Nat) :
    ∀ (n : Nat) (ds : List Char), ds.length ≤ (Nat.toDigitsCore b fuel n ds).length := by
  induction fuel with
  | zero => intro n ds; simp [Nat.toDigitsCore]
  | succ f ih =>
    intro n ds
    unfold Nat.toDigitsCore
    by_cases h : n / b = 0
    · simp [h]
    · simp only [h, if_false]
      calc ds.length ≤ (Nat.digitChar (n % b) :: ds).length := by simp
        _ ≤ _ := ih _ _

theorem toDigits_length_pos (n : Nat) : 0 < (Nat.toDigits 10 n).length := by
  unfold Nat.toDigits Nat.toDigitsCore
  by_cases h : n / 10 = 0
  · simp [h]
  · simp only [h, if_false]
    calc 0 < (Nat.digitChar (n % 10) :: []).length := by simp
      _ ≤ _ := toDigitsCore_length_mono 10 n (n / 10) _

theorem nat_repr_ne_empty (n : Nat) : Nat.repr n ≠ "" := by
  have h : 0 < (Nat.repr n).length := by
    unfold Nat.repr
    simpa using toDigits_length_pos n
  intro he
  rw [he] at h
  simp at h

theorem int_toString_ne_empty (n : Int) : toString n ≠ "" := by
  show Int.repr n ≠ ""
  cases n with
  | ofNat m => exact nat_repr_ne_empty m
  | negSucc m =>
    intro he
    have he' : ("-" ++ Nat.repr (m + 1)) = "" := he
    have hlen := congrArg String.length he'
    rw [String.length_append] at hlen
    have h1 : ("-" : String).length = 1 := rfl
    have h0 : ("" : String).length = 0 := rfl
    omega

/-- Python `str()` of a truthy value is never the empty string. -/
theorem pyStr_ne_empty (v : JValue) (h : truthy v = true) : pyStr v ≠ "" := by
  cases v with
  | null => cases h
  | bool b =>
    cases b with
    | false => cases h
    | true => decide
  | num n =>
    show toString n ≠ ""
    exact int_toString_ne_empty n
  | str s => simpa [truthy, pyStr] using h
  | arr l =>
    show ("[" ++ pyReprList l ++ "]") ≠ ""
    intro he
    have hlen := congrArg String.length he
    rw [String.length_append, String.length_append] at hlen
    have h1 : ("[" : String).length = 1 := rfl
    have h0 : ("" : String).length = 0 := rfl
    omega
  | obj kvs =>
    show ("\x7b" ++ pyReprObj kvs ++ "\x7d") ≠ ""
    intro he
    have hlen := congrArg String.length he
    rw [String.length_append, String.length_append] at hlen
    have h1 : ("\x7b" : String).length = 1 := rfl
    have h0 : ("" : String).length = 0 := rfl
    omega

/-- A projected descriptor's id is never the empty string (the id probe
must have been truthy, and `str()` of a truthy value is non-empty). -/
theorem projected_device_id_ne_empty (e : Dict) (o : DeviceOption)
    (h : _to_device_option e = some o) : o.device_id ≠ "" := by
  unfold _to_device_option at h
  by_cases hid : truthy (_get (_normalize_device_entry e) idKeys) = true
  · by_cases htype : truthy (_get (_normalize_device_entry e) typeKeys) = true
    · simp only [hid, htype, Bool.not_true, Bool.or_self, Bool.false_or, if_false] at h
      have := Option.some.inj h
      rw [← this]
      exact pyStr_ne_empty _ hid
    · rw [Bool.not_eq_true] at htype
      simp [hid, htype] at h
  · rw [Bool.not_eq_true] at hid
    simp [hid] at h

/-- C9: device selection.  An empty list yields nothing; a non-empty
(truthy) requested id that equals some device's id yields that device
(the first such, via `find?`); no request, an empty request (Python-falsy,
so the matching loop is skipped), or a request matching no device yields
the first device.  On projected lists the empty-request case coincides
with "matches no device", since projected ids are never empty (last
conjunct). -/
theorem pick_device_spec :
    (∀ r, _pick_device [] r = none) ∧
    (∀ (d : DeviceOption) ds s m, s ≠ "" →
      (d :: ds).find? (fun x => x.device_id == s) = some m →
      _pick_device (d :: ds) (some s) = some m) ∧
    (∀ (d : DeviceOption) ds, _pick_device (d :: ds) none = some d) ∧
    (∀ (d : DeviceOption) ds s, s ≠ "" →
      (d :: ds).find? (fun x => x.device_id == s) = none →
      _pick_device (d :: ds) (some s) = some d) ∧
    (∀ (d : DeviceOption) ds, _pick_device (d :: ds) (some "") = some d) ∧
    (∀ (e : Dict) (o : DeviceOption), _to_device_option e = some o → o.device_id ≠ "") := by
  refine ⟨?_, ?_, ?_, ?_, ?_, projected_device_id_ne_empty⟩
  · intro r; cases r <;> rfl
  · intro d ds s m hs hf
    simp [_pick_device, hs, hf]
  · intro d ds; rfl
  · intro d ds s hs hf
    simp [_pick_device, hs, hf]
  · intro d ds; rfl

/-- Witness for C9: a request matching the second device returns it; a
request matching nothing falls back to the first device. -/
theorem pick_device_spec_witness :
    _pick_device [⟨"a", "A", "", "DEVICE_OVEN"⟩, ⟨"b", "B", "", "DEVICE_OVEN"⟩] (some "b") =
      some ⟨"b", "B", "", "DEVICE_OVEN"⟩ ∧
    _pick_device [⟨"a", "A", "", "DEVICE_OVEN"⟩, ⟨"b", "B", "", "DEVICE_OVEN"⟩] (some "zz") =
      some ⟨"a", "A", "", "DEVICE_OVEN"⟩ := by
  constructor
  · exact pick_device_spec.2.1 _ _ "b" _ (by decide) (by decide)
  · exact pick_device_spec.2.2.2.1 _ _ "zz" (by decide) (by decide)

/-! ## Sub-device / location resolution -/

/-- C8: sub-device / location resolution.  A requested name is matched
case-insensitively (via uppercasing) against the SDK location
vocabulary, and its sub-device used when registered; in every other case
(no request / falsy request, unknown name, known-but-unregistered
location) the fixed chain primary oven cavity → upper → lower is tried,
taking the first registered; otherwise the first sub-device in
registration order; an empty registry yields no sub-device and no
location tag. -/
theorem pick_subdevice_spec (registry : SubRegistry) (location : Option String) :
    (∀ name l s, location = some name → name ≠ "" →
      locationMembers.lookup (pyUpper name) = some l → registry.lookup l = some s →
      _pick_subdevice registry location = (some s, some l)) ∧
    (_get_location_enum location = none →
      _pick_subdevice registry location = pickSubdeviceDefault registry) ∧
    (∀ l, _get_location_enum location = some l → registry.lookup l = none →
      _pick_subdevice registry location = pickSubdeviceDefault registry) ∧
    (∀ s, registry.lookup .oven = some s →
      pickSubdeviceDefault registry = (some s, some .oven)) ∧
    (registry.lookup .oven = none → ∀ s, registry.lookup .upper = some s →
      pickSubdeviceDefault registry = (some s, some .upper)) ∧
    (registry.lookup .oven = none → registry.lookup .upper = none →
      ∀ s, registry.lookup .lower = some s →
      pickSubdeviceDefault registry = (some s, some .lower)) ∧
    (registry.lookup .oven = none → registry.lookup .upper = none →
      registry.lookup .lower = none → ∀ l s rest, registry = (l, s) :: rest →
      pickSubdeviceDefault registry = (some s, some l)) ∧
    (registry = [] → _pick_subdevice registry location = (none, none)) := by
  refine ⟨?_, ?_, ?_, ?_, ?_, ?_, ?_, ?_⟩
  · rintro name l s rfl hn hm hr
    simp [_pick_subdevice, _get_location_enum, hn, hm, hr]
  · intro h
    simp [_pick_subdevice, h]
  · intro l h hr
    simp [_pick_subdevice, h, hr]
  · intro s h
    simp [pickSubdeviceDefault, h]
  · intro h1 s h
    simp [pickSubdeviceDefault, h1, h]
  · intro h1 h2 s h
    simp [pickSubdeviceDefault, h1, h2, h]
  · rintro h1 h2 h3 l s rest rfl
    simp [pickSubdeviceDefault, h1, h2, h3]
  · rintro rfl
    cases h : _get_location_enum location with
    | none => simp [_pick_subdevice, h, pickSubdeviceDefault]
    | some l => simp [_pick_subdevice, h, pickSubdeviceDefault]

/-- Witness for C8: requesting "lower" (case-insensitively) on a registry
holding only the lower cavity picks it; requesting unknown "garage" on
an oven+upper registry falls back to the primary cavity. -/
theorem pick_subdevice_spec_witness :
    _pick_subdevice [(.lower, 7)] (some "lower") = (some 7, some .lower) ∧
    _pick_subdevice [(.upper, 1), (.oven, 0)] (some "garage") = (some 0, some .oven) := by
  constructor
  · exact (pick_subdevice_spec [(.lower, 7)] (some "lower")).1 "lower" .lower 7 rfl
      (by decide) (by decide) (by decide)
  · have h2 := (pick_subdevice_spec [(.upper, 1), (.oven, 0)] (some "garage")).2.1
    have h4 := (pick_subdevice_spec [(.upper, 1), (.oven, 0)] (some "garage")).2.2.2.1 0
    rw [h2 (by decide), h4 (by decide)]

/-! ## Temperature hint -/

/-- C7 counterexample: a writable constraint that is a mapping holding
only `min` (no `max`) is neither a `\x7bmin,max\x7d` range nor a set of
discrete values, yet the hint is not absent: Python dicts are iterable
over their keys, so the fall-through branch renders the comma-joined key
list `"min"`. -/
theorem temp_hint_min_only_counterexample :
    _temp_hint (.obj [("min", .num 170)]) "F" = some "min" ∧
    _temp_hint (.obj [("min", .num 170)]) "F" ≠ none := by
  constructor
  · rfl
  · intro h; cases h

/-- C7 amended: if the writable constraint is a mapping with `min` and
`max` both present and non-null, the hint is `"{min}-{max}{UNIT}"`; if it
is a non-empty list, the comma-joined `str()`s of its elements; in
addition (Python iterability of the fall-through branch) a non-empty
mapping lacking a non-null `min` or `max` yields its comma-joined keys
and a non-empty string its comma-joined characters; only falsy or
non-iterable (number / boolean / `None` / empty) constraints yield no
hint. -/
theorem temp_hint_spec (writable : JValue) (unit : String) :
    (∀ kvs mn mx, writable = .obj kvs →
      kvs.lookup "min" = some mn → isNull mn = false →
      kvs.lookup "max" = some mx → isNull mx = false →
      _temp_hint writable unit = some (pyStr mn ++ "-" ++ pyStr mx ++ pyUpper unit)) ∧
    (∀ l, writable = .arr l → l ≠ [] →
      _temp_hint writable unit = some (String.intercalate ", " (l.map pyStr))) ∧
    (∀ kvs, writable = .obj kvs → kvs ≠ [] →
      (kvs.lookup "min" = none ∨ kvs.lookup "min" = some .null ∨
       kvs.lookup "max" = none ∨ kvs.lookup "max" = some .null) →
      _temp_hint writable unit = some (String.intercalate ", " (kvs.map fun kv => kv.1))) ∧
    (∀ s, writable = .str s → s ≠ "" →
      _temp_hint writable unit =
        some (String.intercalate ", " (s.toList.map fun c => String.singleton c))) ∧
    (truthy writable = false → _temp_hint writable unit = none) ∧
    (∀ n, writable = .num n → _temp_hint writable unit = none) ∧
    (∀ b, writable = .bool b → _temp_hint writable unit = none) := by
  refine ⟨?_, ?_, ?_, ?_, ?_, ?_, ?_⟩
  · rintro kvs mn mx rfl hmn hmnn hmx hmxn
    have ht : truthy (JValue.obj kvs) = true := by
      cases kvs with
      | nil => cases hmn
      | cons a t => simp [truthy]
    simp [_temp_hint, ht, hmn, hmx, hmnn, hmxn]
  · rintro l rfl hl
    have ht : truthy (JValue.arr l) = true := by
      cases l with
      | nil => exact absurd rfl hl
      | cons a t => simp [truthy]
    simp [_temp_hint, ht, iterStrs]
  · rintro kvs rfl hne hmiss
    have ht : truthy (JValue.obj kvs) = true := by
      cases kvs with
      | nil => exact absurd rfl hne
      | cons a t => simp [truthy]
    rcases hmiss with h | h | h | h
    · cases hmx : kvs.lookup "max" <;> simp [_temp_hint, ht, h, hmx, iterStrs]
    · cases hmx : kvs.lookup "max" <;> simp [_temp_hint, ht, h, hmx, iterStrs, isNull]
    · cases hmn : kvs.lookup "min" <;> simp [_temp_hint, ht, h, hmn, iterStrs]
    · cases hmn : kvs.lookup "min" <;>
        simp [_temp_hint, ht, h, hmn, iterStrs, isNull]
  · rintro s rfl hs
    have ht : truthy (JValue.str s) = true := by simp [truthy, hs]
    simp [_temp_hint, ht, iterStrs]
  · intro ht
    unfold _temp_hint
    rw [ht]
    simp [truthy, iterStrs]
  · rintro n rfl
    by_cases h : truthy (JValue.num n) = true <;> simp_all [_temp_hint, iterStrs, truthy]
  · rintro b rfl
    cases b <;> simp [_temp_hint, truthy, iterStrs]

/-- Witness for C7 amended: the spec's own examples — range
`\x7bmin:170, max:550\x7d` with unit F renders "170-550F", the discrete
set `[300, 325, 350]` renders "300, 325, 350", and an absent constraint
yields no hint. -/
theorem temp_hint_spec_witness :
    _temp_hint (.obj [("min", .num 170), ("max", .num 550)]) "F" = some "170-550F" ∧
    _temp_hint (.arr [.num 300, .num 325, .num 350]) "F" = some "300, 325, 350" ∧
    _temp_hint .null "F" = none := by
  refine ⟨?_, ?_, ?_⟩
  · have h := (temp_hint_spec (.obj [("min", .num 170), ("max", .num 550)]) "F").1
      [("min", .num 170), ("max", .num 550)] (.num 170) (.num 550) rfl rfl rfl rfl rfl
    simpa using h
  · have h := (temp_hint_spec (.arr [.num 300, .num 325, .num 350]) "F").2.1
      [.num 300, .num 325, .num 350] rfl (by simp)
    simpa using h
  · exact (temp_hint_spec .null "F").2.2.2.2.1 rfl

/-! ## Action dispatch -/

theorem isFalseJ_eq_true_iff (ov : Option JValue) :
    isFalseJ ov = true ↔ ov = some (.bool false) := by
  cases ov with
  | none => simp [isFalseJ]
  | some v =>
    cases v with
    | bool b => cases b <;> simp [isFalseJ]
    | null => simp [isFalseJ]
    | num n => simp [isFalseJ]
    | str s => simp [isFalseJ]
    | arr l => simp [isFalseJ]
    | obj kvs => simp [isFalseJ]

/-- C1: for the refresh-triggering preheat actions (`refresh_preheat`,
`test_upper`, `test_lower` map to `async_preheat` with `refresh=True`),
the device status is re-fetched first and the remote-control check reads
it (`subGetStatus env true …`): if the remote-control-enabled reading of
the resolved zone is the boolean `False`, the preheat is refused with an
error naming the resolved zone (`remoteOffMsg (some loc)` spells out the
zone tag) and — the outcome being an error — no cook-mode/temperature
vendor command is issued; if the check passes, the run issues exactly
the same cook-mode-with-temperature command as a plain
(`refresh=False`) preheat. -/
theorem preheat_refresh_remote_check (env : Env) (device_id mode : String) (temp : Int)
    (unit : String) (location : Option String) (sel : DeviceOption) (prof : Dict)
    (sub : Nat) (loc : Location)
    (hsel : _pick_device (projectEntries (_extract_list env.device_list_payload))
      (some device_id) = some sel)
    (hoven : _is_oven sel = true)
    (hprof : _extract_profile env.profile_payload = .ok prof)
    (hsub : _pick_subdevice env.registry location = (some sub, some loc)) :
    (isFalseJ (subGetStatus env true sub .remote_control_enabled) = true →
      async_preheat env device_id mode temp unit location true =
        .error (remoteOffMsg (some loc))) ∧
    (isFalseJ (subGetStatus env true sub .remote_control_enabled) = false →
      async_preheat env device_id mode temp unit location true =
        async_preheat env device_id mode temp unit location false ∧
      async_preheat env device_id mode temp unit location true =
        .ok [if pyUpper unit = "C" then Command.set_cook_mode_with_temperature_c sub mode temp
             else Command.set_cook_mode_with_temperature_f sub mode temp]) := by
  have run : ∀ r : Bool, (r && isFalseJ (subGetStatus env r sub .remote_control_enabled)) = false →
      async_preheat env device_id mode temp unit location r =
        .ok [if pyUpper unit = "C" then Command.set_cook_mode_with_temperature_c sub mode temp
             else Command.set_cook_mode_with_temperature_f sub mode temp] := by
    intro r hc
    by_cases hu : pyUpper unit = "C" <;>
      simp [async_preheat, hsel, hoven, hprof, hsub, hc, hu]
  constructor
  · intro hf
    simp [async_preheat, hsel, hoven, hprof, hsub, hf]
  · intro hf
    have hT := run true (by simp [hf])
    have hF := run false (by simp)
    exact ⟨hT.trans hF.symm, hT⟩

/-- A vendor environment exposing one oven (`o1`) with a registered
primary cavity whose re-fetched remote-control-enabled reading is
`False`. -/
def envOvenRemoteOff : Env :=
  { device_list_payload := .arr [.obj [("deviceId", .str "o1"), ("deviceType", .str "DEVICE_OVEN")]]
    profile_payload := .obj []
    status_payload := .obj [("state", .obj [("x", .num 1)])]
    registry := [(.oven, 0)]
    status_of := fun _ p =>
      match p with
      | .remote_control_enabled => some (.bool false)
      | _ => none }

/-- Witness for C1: with remote control off for the primary cavity, the
refresh-preheat is refused with the error naming the zone. -/
theorem preheat_refresh_remote_check_witness :
    async_preheat envOvenRemoteOff "o1" "BAKE" 350 "F" none true =
      .error "Remote control is OFF for OVEN. Enable remote and try again." := by
  have h := (preheat_refresh_remote_check envOvenRemoteOff "o1" "BAKE" 350 "F" none
    ⟨"o1", "o1", "", "DEVICE_OVEN"⟩ [] 0 .oven rfl rfl rfl rfl).1 rfl
  exact h

/-- C10: with refresh enabled, the remote check refuses the preheat
exactly when the re-fetched remote-control-enabled reading is the
boolean `False` (Python `is False`); when the property is absent from
the status (the reading is `None`) the check passes and the
cook-mode/temperature command is still sent — an unknown remote state is
treated as enabled. -/
theorem preheat_remote_absent_passes (env : Env) (device_id mode : String) (temp : Int)
    (unit : String) (location : Option String) (sel : DeviceOption) (prof : Dict)
    (sub : Nat) (loc : Location)
    (hsel : _pick_device (projectEntries (_extract_list env.device_list_payload))
      (some device_id) = some sel)
    (hoven : _is_oven sel = true)
    (hprof : _extract_profile env.profile_payload = .ok prof)
    (hsub : _pick_subdevice env.registry location = (some sub, some loc)) :
    (subGetStatus env true sub .remote_control_enabled = none →
      async_preheat env device_id mode temp unit location true =
        .ok [if pyUpper unit = "C" then Command.set_cook_mode_with_temperature_c sub mode temp
             else Command.set_cook_mode_with_temperature_f sub mode temp]) ∧
    (async_preheat env device_id mode temp unit location true =
        .error (remoteOffMsg (some loc)) ↔
      subGetStatus env true sub .remote_control_enabled = some (.bool false)) := by
  have run : isFalseJ (subGetStatus env true sub .remote_control_enabled) = false →
      async_preheat env device_id mode temp unit location true =
        .ok [if pyUpper unit = "C" then Command.set_cook_mode_with_temperature_c sub mode temp
             else Command.set_cook_mode_with_temperature_f sub mode temp] := by
    intro hc
    by_cases hu : pyUpper unit = "C" <;>
      simp [async_preheat, hsel, hoven, hprof, hsub, hc, hu]
  have refuse : isFalseJ (subGetStatus env true sub .remote_control_enabled) = true →
      async_preheat env device_id mode temp unit location true =
        .error (remoteOffMsg (some loc)) := by
    intro hf
    simp [async_preheat, hsel, hoven, hprof, hsub, hf]
  constructor
  · intro hnone
    exact run (by rw [subGetStatus] at hnone ⊢; rw [hnone]; rfl)
  · constructor
    · intro herr
      by_cases hf : isFalseJ (subGetStatus env true sub .remote_control_enabled) = true
      · exact (isFalseJ_eq_true_iff _).mp hf
      · rw [Bool.not_eq_true] at hf
        rw [run hf] at herr
        cases herr
    · intro hsf
      exact refuse (by rw [hsf]; rfl)

/-- A vendor environment exposing one oven (`o1`) with a registered
primary cavity and a re-fetched status that carries no
remote-control-enabled reading at all. -/
def envOvenRemoteAbsent : Env :=
  { device_list_payload := .arr [.obj [("deviceId", .str "o1"), ("deviceType", .str "DEVICE_OVEN")]]
    profile_payload := .obj []
    status_payload := .obj [("state", .obj [("x", .num 1)])]
    registry := [(.oven, 0)]
    status_of := fun _ _ => none }

/-- Witness for C10: with the remote reading absent, the refresh-preheat
still sends the Fahrenheit cook-mode command. -/
theorem preheat_remote_absent_passes_witness :
    async_preheat envOvenRemoteAbsent "o1" "BAKE" 350 "F" none true =
      .ok [Command.set_cook_mode_with_temperature_f 0 "BAKE" 350] := by
  have h := (preheat_remote_absent_passes envOvenRemoteAbsent "o1" "BAKE" 350 "F" none
    ⟨"o1", "o1", "", "DEVICE_OVEN"⟩ [] 0 .oven rfl rfl rfl rfl).1 rfl
  rw [if_neg (by decide)] at h
  exact h

/-- An environment with an empty vendor device list. -/
def envEmptyList : Env :=
  { device_list_payload := .obj []
    profile_payload := .obj []
    status_payload := .null
    registry := []
    status_of := fun _ _ => none }

/-- C2 counterexample: with an empty device list, the out-of-vocabulary
action "bogus" fails with the device-resolution error, not with an
"unknown action" error — so the dispatch does not signal "unknown
action" regardless of the other inputs. -/
theorem oven_action_bogus_counterexample :
    async_oven_action envEmptyList "" none "bogus" =
      .error "Selected device is not an oven." ∧
    ("Selected device is not an oven." : String) ≠ "Unknown action: bogus" := by
  exact ⟨rfl, by decide⟩

/-- C2 amended: an action outside the fixed vocabulary (`start`, `stop`,
`remote_on`, `remote_off`) always fails — no vendor command is ever
issued — and the error is the "unknown action" one whenever device
selection, the oven check, profile extraction and sub-device resolution
all succeed; otherwise the corresponding earlier resolution error is
signalled. -/
theorem oven_action_unknown_action (env : Env) (device_id : String)
    (location : Option String) (action : String)
    (h1 : action ≠ "start") (h2 : action ≠ "stop")
    (h3 : action ≠ "remote_on") (h4 : action ≠ "remote_off") :
    (∃ e, async_oven_action env device_id location action = .error e) ∧
    (∀ (sel : DeviceOption) (prof : Dict) (sub : Nat) (oloc : Option Location),
      _pick_device (projectEntries (_extract_list env.device_list_payload))
        (some device_id) = some sel →
      _is_oven sel = true →
      _extract_profile env.profile_payload = .ok prof →
      _pick_subdevice env.registry location = (some sub, oloc) →
      async_oven_action env device_id location action =
        .error ("Unknown action: " ++ action)) := by
  have main : ∀ (sel : DeviceOption) (prof : Dict) (sub : Nat) (oloc : Option Location),
      _pick_device (projectEntries (_extract_list env.device_list_payload))
        (some device_id) = some sel →
      _is_oven sel = true →
      _extract_profile env.profile_payload = .ok prof →
      _pick_subdevice env.registry location = (some sub, oloc) →
      async_oven_action env device_id location action =
        .error ("Unknown action: " ++ action) := by
    intro sel prof sub oloc hp ho hpr hsub
    simp [async_oven_action, hp, ho, hpr, hsub, h1, h2, h3, h4]
  refine ⟨?_, main⟩
  cases hp : _pick_device (projectEntries (_extract_list env.device_list_payload))
      (some device_id) with
  | none => exact ⟨"Selected device is not an oven.", by simp [async_oven_action, hp]⟩
  | some sel =>
    by_cases ho : _is_oven sel = true
    · cases hpr : _extract_profile env.profile_payload with
      | error e => exact ⟨e, by simp [async_oven_action, hp, ho, hpr]⟩
      | ok prof =>
        cases hsub : _pick_subdevice env.registry location with
        | mk osub oloc =>
          cases osub with
          | none => exact ⟨"No oven sub-device found for this model.", by simp [async_oven_action, hp, ho, hpr, hsub]⟩
          | some sub => exact ⟨_, main sel prof sub oloc hp ho hpr hsub⟩
    · rw [Bool.not_eq_true] at ho
      exact ⟨"Selected device is not an oven.", by simp [async_oven_action, hp, ho]⟩

/-- Witness for C2 amended: on a resolvable oven, the action "bogus"
fails with exactly the "unknown action" error. -/
theorem oven_action_unknown_action_witness :
    async_oven_action envOvenRemoteAbsent "o1" none "bogus" =
      .error "Unknown action: bogus" := by
  have h := (oven_action_unknown_action envOvenRemoteAbsent "o1" none "bogus"
    (by decide) (by decide) (by decide) (by decide)).2
    ⟨"o1", "o1", "", "DEVICE_OVEN"⟩ [] 0 (some .oven) rfl rfl rfl rfl
  exact h

end ThinQ
